import Mathlib

/-!
# QATest API: verification of the user-service core

A shallow embedding of `src/app.py`: the in-memory users store, the
pagination handler `get_users`, the validators `validate_name` and
`validate_msisdn`, the mutation handlers `create_user` and `delete_user`,
and the `reset` operation, together with theorems checking the documented
behaviour against the code.

Python strings are modelled as Lean `String`, Python `int` as `Int`,
record ids as `Nat` (the route converter `<int:id>` only matches digit
sequences, and generated ids are positive).  Python dict-shaped JSON
bodies are modelled as association lists of key/value pairs with the
values drawn from a small JSON-value type.  Every handler that mutates
the global `users_db` list is modelled as a function from the current
list (and its input) to a result paired with the new list.
-/

namespace QATest

/-- A stored user record `{"id": ..., "name": ..., "msisdn": ...}`.
`name` is `Option String` because the service stores `None` for an
absent name. -/
structure User where
  id : Nat
  name : Option String
  msisdn : String
deriving DecidableEq

/-- `MAX_NAME_LENGTH = 30` from `src/app.py`. -/
def MAX_NAME_LENGTH : Nat := 30

/-- `MSISDN_LENGTH = 11` from `src/app.py`. -/
def MSISDN_LENGTH : Nat := 11

/-- The fixed seed list `INITIAL_USERS` from `src/app.py`. -/
def INITIAL_USERS : List User :=
  [ ⟨1, some "David Bush", "79161234001"⟩,
    ⟨2, some "Mikka Heep", "79161234002"⟩,
    ⟨3, some "Hannah Oberty", "79161234003"⟩,
    ⟨4, some "Petula Jackson", "79161234004"⟩,
    ⟨5, some "Clark Peterson", "79161234005"⟩,
    ⟨6, some "Betty Williamson", "79161234006"⟩,
    ⟨7, some "John Doe", "79161234007"⟩,
    ⟨8, some "John \"Fireman\" Smith", "79161234008"⟩,
    ⟨9, some "Harrison Ford", "79161234009"⟩,
    ⟨10, some "Bob Dowson", "79161234010"⟩ ]

/-- A JSON value as it arrives in a parsed request body. -/
inductive JVal where
  | jnull
  | jbool (b : Bool)
  | jnum (n : Int)
  | jstr (s : String)
deriving DecidableEq

/-- Python `str.strip()`: drop leading and trailing whitespace
characters (modelled over the character list so that it computes by
kernel reduction). -/
def strip (s : String) : String :=
  String.mk (((s.data.dropWhile Char.isWhitespace).reverse.dropWhile
    Char.isWhitespace).reverse)

/-- Value of a list of decimal digit characters. -/
def digitsToNat (ds : List Char) : Nat :=
  ds.foldl (fun n c => 10 * n + (c.toNat - Char.toNat (Char.ofNat 48))) 0

/-- Python `int(s)` on a string argument: optional surrounding
whitespace, an optional sign, then a nonempty run of decimal digits;
anything else raises `ValueError`, modelled as `none`.  (CPython also
accepts underscores between digits; no input considered here uses
them.) -/
def pyInt (s : String) : Option Int :=
  match (strip s).data with
  | [] => none
  | c :: ds =>
    if c = Char.ofNat 45 then
      if ds ≠ [] ∧ ds.all Char.isDigit then some (-(digitsToNat ds : Int)) else none
    else if c = Char.ofNat 43 then
      if ds ≠ [] ∧ ds.all Char.isDigit then some ((digitsToNat ds : Int)) else none
    else
      if (c :: ds).all Char.isDigit then some ((digitsToNat (c :: ds) : Int)) else none

/-- Decidable equality for validator outcomes. -/
instance {ε α : Type} [DecidableEq ε] [DecidableEq α] : DecidableEq (Except ε α) :=
  fun x y =>
  match x, y with
  | Except.ok a, Except.ok b =>
    if h : a = b then isTrue (congrArg Except.ok h)
    else isFalse (fun hh => h (Except.ok.inj hh))
  | Except.error a, Except.error b =>
    if h : a = b then isTrue (congrArg Except.error h)
    else isFalse (fun hh => h (Except.error.inj hh))
  | Except.ok _, Except.error _ => isFalse (fun hh => Except.noConfusion hh)
  | Except.error _, Except.ok _ => isFalse (fun hh => Except.noConfusion hh)

/-- `validate_name` from `src/app.py`.  `None` is valid and produces an
absent name; a non-string is rejected; otherwise the name is stripped
and (source line 54, the `>=` comparison) rejected when it is nonempty
and its length is at least `MAX_NAME_LENGTH`; an empty-after-strip name
is stored as absent. -/
def validate_name : JVal → Except String (Option String)
  | JVal.jnull => Except.ok none
  | JVal.jstr s =>
    let name := strip s
    if name ≠ "" ∧ MAX_NAME_LENGTH ≤ name.length then
      Except.error ("Name must not exceed " ++ toString MAX_NAME_LENGTH ++ " characters")
    else
      Except.ok (if name = "" then none else some name)
  | _ => Except.error "Name must be a string"

/-- `validate_msisdn` from `src/app.py`.  A missing/falsy or non-string
value is rejected; the value is stripped; the digits-only check is
commented out in the source (lines 70-71), so only the length check
runs. -/
def validate_msisdn : JVal → Except String String
  | JVal.jstr s =>
    if s = "" then Except.error "MSISDN is required and must be a string"
    else
      let msisdn := strip s
      if msisdn.length ≠ MSISDN_LENGTH then
        Except.error ("MSISDN must be exactly " ++ toString MSISDN_LENGTH ++ " digits")
      else
        Except.ok msisdn
  | _ => Except.error "MSISDN is required and must be a string"

/-- `is_msisdn_unique` from `src/app.py`: true iff no stored user has
this msisdn. -/
def is_msisdn_unique (db : List User) (msisdn : String) : Bool :=
  !(db.any (fun user => user.msisdn == msisdn))

/-- Stable insertion of a user into a list sorted by ascending id. -/
def insertById (u : User) : List User → List User
  | [] => [u]
  | v :: vs => if u.id ≤ v.id then u :: v :: vs else v :: insertById u vs

/-- Python `sorted(users_db, key=lambda x: x['id'])`: the stored list
sorted by ascending id (stable insertion sort). -/
def sortById (db : List User) : List User := db.foldr insertById []

/-- Outcome of `GET /users`: either the 200 success envelope
`{"status": "OK", "result": [...]}` or the 500 error path of the
`except` clause (source lines 128-133). -/
inductive GetResult where
  | ok (result : List User)
  | fail500 (description : String)
deriving DecidableEq

/-- The HTTP status code each `get_users` outcome is returned with. -/
def GetResult.httpStatus : GetResult → Nat
  | GetResult.ok _ => 200
  | GetResult.fail500 _ => 500

/-- `get_users` from `src/app.py` (lines 86-133).  `offsetParam` is the
query value of `offset` with default `"0"`; `countParam` is the query
value of `count` when present.  An `int()` parse failure raises and is
caught by the handler, which returns the error body with HTTP 500. -/
def get_users (db : List User) (offsetParam : String) (countParam : Option String) :
    GetResult :=
  match pyInt offsetParam with
  | none => GetResult.fail500 ("invalid literal for int() with base 10: " ++ offsetParam)
  | some offset =>
    if offset < 0 then GetResult.ok []
    else
      match countParam with
      | some cs =>
        match pyInt cs with
        | none => GetResult.fail500 ("invalid literal for int() with base 10: " ++ cs)
        | some count =>
          if count < 0 then GetResult.ok []
          else
            let sorted_users := sortById db
            if (sorted_users.length : Int) ≤ offset then GetResult.ok []
            else if count = 0 then
              GetResult.ok (sorted_users.take 1)
            else
              GetResult.ok ((sorted_users.drop offset.toNat).take count.toNat)
      | none =>
        let sorted_users := sortById db
        if (sorted_users.length : Int) ≤ offset then GetResult.ok []
        else GetResult.ok (sorted_users.drop offset.toNat)

/-- `reset` from `src/app.py` (lines 136-141): replace the whole store
with fresh copies of the seed (`user.copy()` is the identity on the
immutable records of the embedding). -/
def reset (_db : List User) : List User := INITIAL_USERS

/-- Outcome of `POST /users`: the created record (returned in the
`"user"` field of the 200 response) or the 200 error envelope. -/
inductive CreateResult where
  | created (u : User)
  | err (description : String)
deriving DecidableEq

/-- `allowed_fields = {'name', 'msisdn'}` from `create_user`. -/
def allowed_fields : List String := ["name", "msisdn"]

/-- `data[k]` on the association-list model of a JSON object. -/
def lookupField (data : List (String × JVal)) (k : String) : Option JVal :=
  (data.find? (fun p => p.1 == k)).map (fun p => p.2)

/-- `create_user` from `src/app.py` (lines 147-211), acting on the
current store.  The body is `none` when `request.get_json()` yields no
usable JSON object.  The msisdn-uniqueness check is commented out in
the source (lines 174-176), and the assigned id is `len(users_db) + 1`
(line 188). -/
def create_user (db : List User) (input : Option (List (String × JVal))) :
    CreateResult × List User :=
  match input with
  | none => (CreateResult.err "Invalid JSON data", db)
  | some data =>
    if data.isEmpty then (CreateResult.err "Invalid JSON data", db)
    else
      let received_fields := data.map (fun p => p.1)
      let extra_fields := received_fields.filter (fun k => !(allowed_fields.contains k))
      if !extra_fields.isEmpty then
        (CreateResult.err ("Extra fields not allowed: " ++
          String.intercalate ", " extra_fields), db)
      else
        match lookupField data "msisdn" with
        | none => (CreateResult.err "Missing required field: msisdn", db)
        | some mval =>
          match validate_msisdn mval with
          | Except.error e => (CreateResult.err e, db)
          | Except.ok msisdn =>
            let nameRes : Except String (Option String) :=
              match lookupField data "name" with
              | none => Except.ok none
              | some nval => validate_name nval
            match nameRes with
            | Except.error e => (CreateResult.err e, db)
            | Except.ok name =>
              let next_id := db.length + 1
              let new_user : User := { id := next_id, name := name, msisdn := msisdn }
              (CreateResult.created new_user, db ++ [new_user])

/-- Outcome of `DELETE /users/<id>`: the success message or the 200
error envelope. -/
inductive DeleteResult where
  | okMsg (message : String)
  | err (description : String)
deriving DecidableEq

/-- `delete_user` from `src/app.py` (lines 234-251): look the id up; if
absent report not-found and leave the store alone; otherwise keep
exactly the users whose id differs. -/
def delete_user (db : List User) (i : Nat) : DeleteResult × List User :=
  match db.find? (fun u => u.id == i) with
  | none => (DeleteResult.err ("User with id " ++ toString i ++ " not found"), db)
  | some _ =>
    (DeleteResult.okMsg ("User with id " ++ toString i ++ " deleted successfully"),
      db.filter (fun u => u.id != i))

/-- One mutating API call against the store. -/
inductive Op where
  | doReset
  | doCreate (input : Option (List (String × JVal)))
  | doDelete (i : Nat)

/-- Effect of one mutating call on the stored list. -/
def applyOp (db : List User) : Op → List User
  | Op.doReset => reset db
  | Op.doCreate input => (create_user db input).2
  | Op.doDelete i => (delete_user db i).2

/-- Effect of a whole sequence of mutating calls. -/
def runOps (db : List User) (ops : List Op) : List User := ops.foldl applyOp db

end QATest

namespace QATest

/-- Inserting one user grows the length by one. -/
theorem insertById_length (u : User) (l : List User) :
    (insertById u l).length = l.length + 1 := by
  induction l with
  | nil => rfl
  | cons v vs ih =>
    unfold insertById
    split
    · rfl
    · simp [ih]

/-- Sorting preserves the length of the stored list. -/
theorem sortById_length (db : List User) : (sortById db).length = db.length := by
  induction db with
  | nil => rfl
  | cons u us ih =>
    show (insertById u (sortById us)).length = us.length + 1
    rw [insertById_length, ih]

/-- Claim C1: on the seed store, `count=0` with `offset=3` ignores the
offset and answers with the first sorted user (id 1), while `count=1`
with the same offset answers with the user at position 3 (id 4): the
code takes `sorted_users[0:1]` whenever `count == 0`. -/
theorem get_users_count_zero_ignores_offset :
    get_users INITIAL_USERS "3" (some "0")
      = GetResult.ok [⟨1, some "David Bush", "79161234001"⟩]
    ∧ get_users INITIAL_USERS "3" (some "1")
      = GetResult.ok [⟨4, some "Petula Jackson", "79161234004"⟩] := by
  decide

/-- Claim C3: creating a user whose msisdn duplicates seed user 1
succeeds (the uniqueness check is commented out in the source), leaving
the store with two users sharing msisdn `79161234001`; no
`ConflictError` is produced even though `is_msisdn_unique` is false. -/
theorem create_user_duplicate_msisdn_accepted :
    (create_user INITIAL_USERS (some [("msisdn", JVal.jstr "79161234001")])).1
      = CreateResult.created ⟨11, none, "79161234001"⟩
    ∧ ((create_user INITIAL_USERS (some [("msisdn", JVal.jstr "79161234001")])).2.filter
        (fun u => u.msisdn == "79161234001")).length = 2
    ∧ is_msisdn_unique INITIAL_USERS "79161234001" = false := by
  decide

/-- Claim C4: after `reset` and `delete 1` the store still holds a user
with id 10, yet the next successful create assigns
`len(users_db) + 1 = 10`, an id that is not `max(existing ids) + 1 = 11`
and not greater than every present id. -/
theorem create_user_id_reuse :
    (create_user (delete_user (reset []) 1).2
        (some [("msisdn", JVal.jstr "79998887766")])).1
      = CreateResult.created ⟨10, none, "79998887766"⟩
    ∧ (delete_user (reset []) 1).2.any (fun u => u.id == 10) = true := by
  decide

/-- Claim C5: an 11-character msisdn containing letters is accepted by
`validate_msisdn` (the digits-only check is commented out in the
source), instead of being rejected with the digits-only message. -/
theorem validate_msisdn_letters_accepted :
    validate_msisdn (JVal.jstr "7916abc4567") = Except.ok "7916abc4567"
    ∧ "7916abc4567".data.all Char.isDigit = false := by
  decide

/-- Claim C6: a name of exactly 30 characters after trimming is
rejected by `validate_name` (the source compares with `>=`), not
accepted as the strict ">" boundary would do. -/
theorem validate_name_rejects_length_30 :
    validate_name (JVal.jstr (String.mk (List.replicate 30 (Char.ofNat 65))))
      = Except.error "Name must not exceed 30 characters"
    ∧ (String.mk (List.replicate 30 (Char.ofNat 65))).length = 30 := by
  decide

/-- Claim C7: an unparsable `offset` makes `get_users` take the
`except` path and answer with HTTP status 500 carrying the raised
message, not a 200 validation-error envelope. -/
theorem get_users_parse_failure_is_500 :
    get_users INITIAL_USERS "abc" none
      = GetResult.fail500 "invalid literal for int() with base 10: abc"
    ∧ (get_users INITIAL_USERS "abc" none).httpStatus = 500 := by
  decide

/-- Claim C8: `reset` is a full replace and idempotent: after any
sequence of mutating calls from any starting store, one `reset` yields
exactly the seed list, a second `reset` yields the same contents, and
those contents are already in ascending id order. -/
theorem reset_idempotent_full_replace (db : List User) (ops : List Op) :
    applyOp (runOps db ops) Op.doReset = INITIAL_USERS
    ∧ applyOp (applyOp db Op.doReset) Op.doReset = applyOp db Op.doReset
    ∧ sortById (applyOp db Op.doReset) = applyOp db Op.doReset := by
  refine ⟨rfl, rfl, ?_⟩
  show sortById INITIAL_USERS = INITIAL_USERS
  decide

/-- Claim C9: `create_user` is atomic: on every error outcome the store
is returned unchanged, and on a success outcome the store is exactly
the old store with the one created user appended. -/
theorem create_user_atomic (db : List User) (input : Option (List (String × JVal))) :
    (create_user db input).2 =
      match (create_user db input).1 with
      | CreateResult.created u => db ++ [u]
      | CreateResult.err _ => db := by
  unfold create_user
  cases input with
  | none => rfl
  | some data =>
    dsimp only
    repeat' first | rfl | split

/-- Claim C10: when some stored user has the requested id,
`delete_user` leaves no user with that id in the store, keeps every
user with a different id, and returns a store that is a sublist (same
relative order, unchanged records) of the old one. -/
theorem delete_user_removes_id (db : List User) (i : Nat)
    (h : ∃ u ∈ db, u.id = i) :
    (∀ u ∈ (delete_user db i).2, u.id ≠ i)
    ∧ (∀ u ∈ db, u.id ≠ i → u ∈ (delete_user db i).2)
    ∧ (delete_user db i).2.Sublist db := by
  obtain ⟨u0, hu0, hid⟩ := h
  have hsome : (db.find? (fun u => u.id == i)).isSome := by
    exact List.find?_isSome.mpr ⟨u0, hu0, by simp [hid]⟩
  cases hf : db.find? (fun u => u.id == i) with
  | none => rw [hf] at hsome; cases hsome
  | some w =>
    have h2 : (delete_user db i).2 = db.filter (fun u => u.id != i) := by
      unfold delete_user
      rw [hf]
    rw [h2]
    refine ⟨?_, ?_, List.filter_sublist db⟩
    · intro u hu
      have := (List.mem_filter.mp hu).2
      simpa using this
    · intro u hu hne
      exact List.mem_filter.mpr ⟨hu, by simpa using hne⟩

/-- Witness for the delete theorem: deleting id 5 from the seed. -/
theorem delete_user_removes_id_witness :
    (∀ u ∈ (delete_user INITIAL_USERS 5).2, u.id ≠ 5)
    ∧ (∀ u ∈ INITIAL_USERS, u.id ≠ 5 → u ∈ (delete_user INITIAL_USERS 5).2)
    ∧ (delete_user INITIAL_USERS 5).2.Sublist INITIAL_USERS :=
  delete_user_removes_id INITIAL_USERS 5 (by decide)

/-- Claim C2: for parsed parameters `offset >= 0` and `count >= 1`,
`get_users` answers with the store sorted by ascending id and sliced to
positions `[offset, offset+count)` clipped to the available length, so
the answer has length `min count (N - offset)` (truncated subtraction);
with `count` absent it answers with everything from `offset` on. -/
theorem get_users_paginates (db : List User) (os cs : String) (off cnt : Int)
    (ho : pyInt os = some off) (hc : pyInt cs = some cnt)
    (h0 : 0 ≤ off) (h1 : 1 ≤ cnt) :
    get_users db os (some cs)
      = GetResult.ok (((sortById db).drop off.toNat).take cnt.toNat)
    ∧ (((sortById db).drop off.toNat).take cnt.toNat).length
        = min cnt.toNat (db.length - off.toNat)
    ∧ get_users db os none = GetResult.ok ((sortById db).drop off.toNat) := by
  have hlen : (sortById db).length = db.length := sortById_length db
  refine ⟨?_, ?_, ?_⟩
  · simp only [get_users, ho, hc]
    rw [if_neg (by omega : ¬ off < 0), if_neg (by omega : ¬ cnt < 0)]
    by_cases hb : ((sortById db).length : Int) ≤ off
    · rw [if_pos hb]
      have hdrop : (sortById db).drop off.toNat = [] :=
        List.drop_eq_nil_of_le (by omega)
      rw [hdrop]
      simp
    · rw [if_neg hb, if_neg (by omega : ¬ cnt = 0)]
  · rw [List.length_take, List.length_drop, hlen]
  · simp only [get_users, ho]
    rw [if_neg (by omega : ¬ off < 0)]
    by_cases hb : ((sortById db).length : Int) ≤ off
    · rw [if_pos hb]
      have hdrop : (sortById db).drop off.toNat = [] :=
        List.drop_eq_nil_of_le (by omega)
      rw [hdrop]
    · rw [if_neg hb]

/-- Witness for the pagination theorem: the seed store with `offset=2`
and `count=4` answers with the four users at sorted positions 2 to 5. -/
theorem get_users_paginates_witness :
    get_users INITIAL_USERS "2" (some "4")
      = GetResult.ok (((sortById INITIAL_USERS).drop 2).take 4)
    ∧ (((sortById INITIAL_USERS).drop 2).take 4).length
        = min 4 (INITIAL_USERS.length - 2)
    ∧ get_users INITIAL_USERS "2" none
        = GetResult.ok ((sortById INITIAL_USERS).drop 2) := by
  exact get_users_paginates INITIAL_USERS "2" "4" 2 4 (by decide) (by decide)
    (by decide) (by decide)

end QATest
